import Mathlib

/-!
Verification development for the usaspending-mcp repository.

The repository exposes four MCP tool operations (in
`src/usaspending_mcp/server.py`, with near-identical variants in
`goostr/server.py`) that proxy the public usaspending.gov REST API through
the transport helpers `async_http_get` / `async_http_post` of
`goostr/util.py`.

Shallow-embedding conventions used throughout this file:

* JSON values are modelled by the inductive `Json` below.  JSON numbers are
  modelled as `Int`; no property verified here depends on fractional values
  (float-typed fields of the keyword-search result only pass values through).
* The transport helpers of `goostr/util.py` simply return the raw `httpx`
  response; they never call `raise_for_status`, so `httpx.HTTPStatusError`
  is never raised anywhere in the program.  A transport is therefore a
  function from the issued request to a `TransportOutcome`: either a
  response with a status code and a body (`some j` when the body parses as
  JSON, `none` when it is malformed), or an `httpx.RequestError` carrying
  the textual representation of its cause.
* Each tool is a function from a transport and its (already validated)
  arguments to a pair of its result and the list of HTTP requests it
  issued, in order.  An empty list means the transport layer was never
  invoked.
* Exceptions are explicit: `ToolResult.mcpError` is the structured
  `McpError` the tools raise in their `except` clauses, while
  `ToolResult.raised` is a raw Python exception escaping the tool
  uncaught (e.g. `json.JSONDecodeError` from `response.json()`, or a
  pydantic `ValidationError` from `KeywordSearchResponse(**i)` — neither
  is an `httpx.HTTPStatusError` or `httpx.RequestError`, so neither is
  caught by the tools' `except` clauses).
* Argument validation follows pydantic v2 semantics (the `mcp` SDK the
  repository builds on requires pydantic 2): a declared field without a
  default is required even when its type is `Optional[...]`; a `str` field
  accepts exactly JSON strings (including the empty string); an `int`
  field laxly accepts JSON integers and integer-shaped strings.
-/

/-- JSON values, with numbers modelled as integers. -/
inductive Json where
  | null : Json
  | bool (b : Bool) : Json
  | num (n : Int) : Json
  | str (s : String) : Json
  | arr (xs : List Json) : Json
  | obj (fields : List (String × Json)) : Json

/-- Field access on a JSON object (Python `dict` access / `dict.get`):
the first binding of the key, `none` when the key is absent or the value
is not an object. -/
def Json.getField : Json → String → Option Json
  | .obj fields, k => fields.lookup k
  | _, _ => none

/-- An outbound HTTP request issued through `async_http_get` /
`async_http_post` of `goostr/util.py`. -/
inductive HttpRequest where
  | get (url : String) : HttpRequest
  | post (url : String) (body : Json) : HttpRequest

/-- The URL of a request (`e.request.url` in the `except` clauses). -/
def HttpRequest.url : HttpRequest → String
  | .get u => u
  | .post u _ => u

/-- What the transport helper produces for a request.  `response s b`
models the raw `httpx` response with status code `s`; `b` is `some j`
when the body parses as JSON `j` and `none` when `response.json()` would
raise `json.JSONDecodeError`.  `requestError cause` models
`httpx.RequestError` (connection failure, timeout, DNS failure) with
`cause` the `repr` of the exception.  `async_http_get`/`async_http_post`
never call `raise_for_status`, so no `httpx.HTTPStatusError` outcome
exists. -/
inductive TransportOutcome where
  | response (status : Nat) (body : Option Json) : TransportOutcome
  | requestError (cause : String) : TransportOutcome

/-- A (stubbed) transport: one outcome per request. -/
abbrev Transport := HttpRequest → TransportOutcome

/-- Raw Python exceptions that escape a tool uncaught: they are neither
`httpx.HTTPStatusError` nor `httpx.RequestError`, the only classes the
tools' `except` clauses catch. -/
inductive PyError where
  | jsonDecodeError : PyError
  | pydanticValidationError (fields : List String) : PyError
  | typeError : PyError
  | valueError (msg : String) : PyError

/-- The typed projection of one keyword-search result
(`KeywordSearchResponse` in `src/usaspending_mcp/server.py`).  Every field
is required under pydantic v2 (none has a default); the `Optional`-typed
fields may be explicitly `null`. -/
structure KeywordSearchResponse where
  internal_id : Option Int
  description : Option String
  award_id : Option String
  recipient_name : String
  award_amount : Option Int
  total_outlays : Option Int
  awarding_agency : Option String
  awarding_subagency : Option String
  start_date : Option String
  end_date : Option String
  awarding_agency_id : Option Int
  generated_unique_award_id : Option String

/-- The observable outcome of one tool invocation. -/
inductive ToolResult where
  | ok (v : Json) : ToolResult
  | okResults (rs : List KeywordSearchResponse) : ToolResult
  | validationError (field : String) : ToolResult
  | mcpError (message : String) : ToolResult
  | raised (e : PyError) : ToolResult

/-- Message of the `McpError` raised in every tool's
`except httpx.RequestError` clause:
an f-string interpolating `e.request.url` and `repr(e)`. -/
def transportErrorMessage (url cause : String) : String :=
  "Error while requesting " ++ url ++ ". Http Error: " ++ cause

/-- Shared body of the three pass-through tools
(`get_gov_spending_by_fiscal_year`, `get_award_info`, `get_us_agencies`):
issue the single request, return `response.json()` on any response whose
body parses (the status code is never inspected, since the transport
helpers never raise `httpx.HTTPStatusError`), let the raw
`json.JSONDecodeError` escape on a malformed body, and translate
`httpx.RequestError` into the `McpError` of the `except` clause. -/
def passThroughRun (t : Transport) (req : HttpRequest) :
    ToolResult × List HttpRequest :=
  match t req with
  | .response _ (some j) => (.ok j, [req])
  | .response _ none => (.raised .jsonDecodeError, [req])
  | .requestError cause =>
      (.mcpError (transportErrorMessage req.url cause), [req])

/-- Endpoint of `GetSpendingAwardsByAgencyId`. -/
def SPENDING_URL : String := "https://api.usaspending.gov/api/v2/spending/"

/-- The POST body built by `get_gov_spending_by_fiscal_year`. -/
def spendingBody (year agency_id : String) : Json :=
  .obj [("type", .str "award"),
        ("filters", .obj [("fy", .str year),
                          ("period", .str "12"),
                          ("agency", .str agency_id)])]

/-- Tool `GetSpendingAwardsByAgencyId` after argument validation
(`get_gov_spending_by_fiscal_year` in `src/usaspending_mcp/server.py`). -/
def get_gov_spending_by_fiscal_year (t : Transport)
    (year agency_id : String) : ToolResult × List HttpRequest :=
  passThroughRun t (.post SPENDING_URL (spendingBody year agency_id))

/-- Endpoint of `GetAgencies`. -/
def AGENCIES_URL : String :=
  "https://api.usaspending.gov/api/v2/references/toptier_agencies/"

/-- Tool `GetAgencies` (`get_us_agencies` in
`src/usaspending_mcp/server.py`); it takes no arguments. -/
def get_us_agencies (t : Transport) : ToolResult × List HttpRequest :=
  passThroughRun t (.get AGENCIES_URL)

/-- Endpoint of `SearchByKeywords`. -/
def SEARCH_URL : String :=
  "https://api.usaspending.gov/api/v2/search/spending_by_award/"

/-- Zero-padded decimal rendering of a natural number to a minimum
width. -/
def padNat (width n : Nat) : String :=
  let s := toString n
  String.mk (List.replicate (width - s.length) '0') ++ s

/-- Rendering of `datetime(year, month, day).strftime("%Y-%m-%d")` for
`year` in datetime's domain `1..9999` (CPython zero-pads `%Y` to four
digits for the years used by the theorems below). -/
def strftimeYmd (year : Int) (month day : Nat) : String :=
  padNat 4 year.toNat ++ "-" ++ padNat 2 month ++ "-" ++ padNat 2 day

/-- The fixed `fields` projection list of the keyword-search POST body. -/
def searchFieldsList : List String :=
  ["Award ID", "Recipient Name", "Award Amount", "Total Outlays",
   "Description", "Contract Award Type", "def_codes",
   "COVID-19 Obligations", "COVID-19 Outlays",
   "Infrastructure Obligations", "Infrastructure Outlays",
   "Awarding Agency", "Awarding Sub Agency", "Start Date", "End Date",
   "recipient_id", "prime_award_recipient_id"]

/-- The POST body `data` built by `search_award_by_keyword`. -/
def searchBody (keywords : List String) (year : Int) : Json :=
  .obj [("filters",
          .obj [("keywords", .arr (keywords.map .str)),
                ("time_period",
                  .arr [.obj [("start_date", .str (strftimeYmd year 1 1)),
                              ("end_date", .str (strftimeYmd year 12 31))]]),
                ("award_type_codes",
                  .arr [.str "A", .str "B", .str "C", .str "D"])]),
        ("fields", .arr (searchFieldsList.map .str)),
        ("page", .num 1),
        ("limit", .num 20),
        ("sort", .str "Award Amount"),
        ("order", .str "desc"),
        ("subawards", .bool false)]

/-- Decimal digits to a natural number (`none` on a non-digit). -/
def digitsToNatAux : List Char → Nat → Option Nat
  | [], acc => some acc
  | c :: rest, acc =>
      if c.isDigit then
        digitsToNatAux rest (acc * 10 + (c.toNat - '0'.toNat))
      else none

/-- Parse of an integer-shaped string (an optional sign followed by at
least one decimal digit), modelling the lax `str` to `int` coercion
pydantic v2 applies. -/
def strToInt (s : String) : Option Int :=
  match s.data with
  | [] => none
  | '-' :: [] => none
  | '-' :: ds => (digitsToNatAux ds 0).map (fun n => -(n : Int))
  | '+' :: [] => none
  | '+' :: ds => (digitsToNatAux ds 0).map (fun n => (n : Int))
  | ds => (digitsToNatAux ds 0).map (fun n => (n : Int))

/-- Pydantic v2 lax validation of an `Optional[int]` (or `Optional[float]`,
with numbers modelled as integers) field value: `null` is accepted, JSON
numbers are accepted, integer-shaped strings are laxly coerced; the outer
`none` means the value is invalid. -/
def convOptInt : Json → Option (Option Int)
  | .null => some none
  | .num n => some (some n)
  | .str s => (strToInt s).map some
  | _ => none

/-- Pydantic v2 validation of an `Optional[str]` field value. -/
def convOptStr : Json → Option (Option String)
  | .null => some none
  | .str s => some (some s)
  | _ => none

/-- Pydantic v2 validation of a required `str` field value (the empty
string is a valid string). -/
def convStr : Json → Option String
  | .str s => some s
  | _ => none

/-- The error contribution of one field of `KeywordSearchResponse`:
pydantic reports the field (under its population key `key`, the alias
when one is declared) when the key is absent — every field is required,
none has a default — or when its value fails `conv`. -/
def fieldErr {α : Type} (entry : List (String × Json)) (key : String)
    (conv : Json → Option α) : List String :=
  match (entry.lookup key).bind conv with
  | some _ => []
  | none => [key]

/-- The value of one field of `KeywordSearchResponse`; only meaningful
when `fieldErr` is empty for that field. -/
def fieldVal {α : Type} (entry : List (String × Json)) (key : String)
    (conv : Json → Option α) (dflt : α) : α :=
  ((entry.lookup key).bind conv).getD dflt

/-- All validation errors pydantic collects for one upstream `results`
entry, in field declaration order, each named by its population key. -/
def entryErrors (entry : List (String × Json)) : List String :=
  fieldErr entry "internal_id" convOptInt ++
  fieldErr entry "Description" convOptStr ++
  fieldErr entry "Award ID" convOptStr ++
  fieldErr entry "Recipient Name" convStr ++
  fieldErr entry "Award Amount" convOptInt ++
  fieldErr entry "Total Outlays" convOptInt ++
  fieldErr entry "Awarding Agency" convOptStr ++
  fieldErr entry "Awarding Sub Agency" convOptStr ++
  fieldErr entry "Start Date" convOptStr ++
  fieldErr entry "End Date" convOptStr ++
  fieldErr entry "awarding_agency_id" convOptInt ++
  fieldErr entry "generated_internal_id" convOptStr

/-- Construction `KeywordSearchResponse(**i)` for one upstream entry `i`:
a pydantic `ValidationError` listing the offending fields when any field
is missing or invalid; `TypeError` when `i` is not a JSON object (then
`**i` itself fails).  Population is by alias (pydantic v2 default when a
`Field(alias=...)` is declared) or by name for the fields without an
alias. -/
def mapEntry : Json → Except PyError KeywordSearchResponse
  | .obj entry =>
      if entryErrors entry = [] then
        .ok
          { internal_id := fieldVal entry "internal_id" convOptInt none
            description := fieldVal entry "Description" convOptStr none
            award_id := fieldVal entry "Award ID" convOptStr none
            recipient_name := fieldVal entry "Recipient Name" convStr ""
            award_amount := fieldVal entry "Award Amount" convOptInt none
            total_outlays := fieldVal entry "Total Outlays" convOptInt none
            awarding_agency :=
              fieldVal entry "Awarding Agency" convOptStr none
            awarding_subagency :=
              fieldVal entry "Awarding Sub Agency" convOptStr none
            start_date := fieldVal entry "Start Date" convOptStr none
            end_date := fieldVal entry "End Date" convOptStr none
            awarding_agency_id :=
              fieldVal entry "awarding_agency_id" convOptInt none
            generated_unique_award_id :=
              fieldVal entry "generated_internal_id" convOptStr none }
      else .error (.pydanticValidationError (entryErrors entry))
  | _ => .error .typeError

/-- The list comprehension
`[KeywordSearchResponse(**i) for i in mapped]`: entries are mapped in
order and the first failing entry aborts the whole comprehension with its
exception. -/
def mapEntries : List Json → Except PyError (List KeywordSearchResponse)
  | [] => .ok []
  | e :: rest =>
      match mapEntry e with
      | .error err => .error err
      | .ok r =>
          match mapEntries rest with
          | .error err => .error err
          | .ok rs => .ok (r :: rs)

/-- Evaluation of `response.json().get("results", [])` followed by
iteration: an object without a `results` key yields the empty list; a
`results` array yields its entries.  A non-object top level would raise
`AttributeError` at `.get` and a non-array `results` would generally fail
iteration or unpacking; both are outside the domain exercised here and
are modelled as a raised `TypeError`. -/
def getResults : Json → Except PyError (List Json)
  | .obj fields =>
      match fields.lookup "results" with
      | none => .ok []
      | some (.arr xs) => .ok xs
      | some _ => .error .typeError
  | _ => .error .typeError

/-- Tool `SearchByKeywords` after argument validation
(`search_award_by_keyword` in `src/usaspending_mcp/server.py`).
`datetime(year=args.year, month=1, day=1)` raises `ValueError` before any
request when `year` is outside `datetime`'s domain `1..9999`. -/
def search_award_by_keyword (t : Transport) (keywords : List String)
    (year : Int) : ToolResult × List HttpRequest :=
  if year < 1 ∨ 9999 < year then
    (.raised (.valueError "year is out of range"), [])
  else
    let req := HttpRequest.post SEARCH_URL (searchBody keywords year)
    match t req with
    | .response _ (some j) =>
        (match getResults j with
         | .error e => .raised e
         | .ok entries =>
             match mapEntries entries with
             | .ok rs => .okResults rs
             | .error e => .raised e,
         [req])
    | .response _ none => (.raised .jsonDecodeError, [req])
    | .requestError cause =>
        (.mcpError (transportErrorMessage SEARCH_URL cause), [req])

/-- Split of a character list at every `'/'`, keeping empty pieces — the
behaviour of Python `str.split('/')` (never returns an empty list). -/
def splitSlash : List Char → List (List Char)
  | [] => [[]]
  | c :: rest =>
      if c = '/' then [] :: splitSlash rest
      else
        match splitSlash rest with
        | [] => [[c]]
        | s :: ss => (c :: s) :: ss

/-- CPython `urljoin`'s `segments[1:-1] = filter(None, segments[1:-1])`
on the merged segment list: the first and last segments are kept, empty
segments strictly between them are dropped. -/
def filterLast : List (List Char) → List (List Char)
  | [] => []
  | [a] => [a]
  | a :: b :: rest =>
      if a = [] then filterLast (b :: rest)
      else a :: filterLast (b :: rest)

/-- Keep the head segment and filter empties from the middle (see
`filterLast`). -/
def filterMiddle : List (List Char) → List (List Char)
  | [] => []
  | a :: rest => a :: filterLast rest

/-- CPython `urljoin`'s dot-segment resolution loop: `'..'` pops the
accumulator (silently when it is empty), `'.'` is skipped, every other
segment is appended. -/
def resolveLoop (acc : List (List Char)) :
    List (List Char) → List (List Char)
  | [] => acc
  | seg :: rest =>
      if seg = ['.', '.'] then resolveLoop acc.dropLast rest
      else if seg = ['.'] then resolveLoop acc rest
      else resolveLoop (acc ++ [seg]) rest

/-- Split of an absolute `http(s)` URL into its `scheme://netloc` part and
its path part (everything from the first `'/'` after the authority). -/
def splitAuthority : List Char → List Char × List Char
  | ':' :: '/' :: '/' :: rest =>
      (':' :: '/' :: '/' :: rest.takeWhile (· ≠ '/'),
       rest.dropWhile (· ≠ '/'))
  | c :: rest =>
      let p := splitAuthority rest
      (c :: p.1, p.2)
  | [] => ([], [])

/-- The last element of a segment list (Python `segments[-1]`; segment
lists produced by `splitSlash` are never empty). -/
def lastSeg : List (List Char) → List Char
  | [] => []
  | [a] => a
  | _ :: b :: rest => lastSeg (b :: rest)

/-- Python `'/'.join(segments)`. -/
def joinSlash : List (List Char) → List Char
  | [] => []
  | [a] => a
  | a :: b :: rest => a ++ '/' :: joinSlash (b :: rest)

/-- CPython `urljoin`'s segment list: the relative path is taken whole
when it starts with `'/'` (or when the base path is empty); otherwise it
is merged onto the base path with the base's last segment dropped and
interior empty segments of the merged list filtered. -/
def urljoinSegments (bpath relc : List Char) : List (List Char) :=
  if relc.head? = some '/' then splitSlash relc
  else if bpath = [] then splitSlash relc
  else filterMiddle ((splitSlash bpath).dropLast ++ splitSlash relc)

/-- Dot-segment resolution of the merged segment list, restoring a
trailing empty segment when the reference ends in `'.'` or `'..'`. -/
def resolveAll (segments : List (List Char)) : List (List Char) :=
  if lastSeg segments = ['.'] ∨ lastSeg segments = ['.', '.']
  then resolveLoop [] segments ++ [[]]
  else resolveLoop [] segments

/-- The resolved path of `urljoin`, `"/"` when it comes out empty. -/
def urljoinPath (bpath relc : List Char) : List Char :=
  if joinSlash (resolveAll (urljoinSegments bpath relc)) = [] then ['/']
  else joinSlash (resolveAll (urljoinSegments bpath relc))

/-- Model of `urllib.parse.urljoin(base, rel)` for an absolute `http(s)`
`base` and a relative reference `rel` consisting of a path only (no
scheme, netloc, query or fragment) — the only shapes `get_award_info`
produces.  Follows CPython's algorithm (see `urljoinSegments`,
`resolveAll`, `urljoinPath`). -/
def urljoin (base rel : String) : String :=
  String.mk ((splitAuthority base.data).1 ++
    urljoinPath (splitAuthority base.data).2 rel.data)

/-- Base endpoint of `GetAwardInfoByAwardId`. -/
def AWARDS_BASE_URL : String := "https://api.usaspending.gov/api/v2/awards/"

/-- The URL `get_award_info` requests:
`urljoin(BASE_URL, f"{args.generated_unique_award_id}/")`. -/
def get_award_info_url (generated_unique_award_id : String) : String :=
  urljoin AWARDS_BASE_URL (generated_unique_award_id ++ "/")

/-- Tool `GetAwardInfoByAwardId` after argument validation
(`get_award_info` in `src/usaspending_mcp/server.py`). -/
def get_award_info (t : Transport) (generated_unique_award_id : String) :
    ToolResult × List HttpRequest :=
  passThroughRun t (.get (get_award_info_url generated_unique_award_id))

/-- Arguments of `GetSpendingAwardsByAgencyId`
(`AwardsByAgencyAndFyArgs`): two required `str` fields. -/
structure AwardsByAgencyAndFyArgs where
  year : String
  agency_id : String

/-- Arguments of `SearchByKeywords` (`KeywordSearchArgs`): a required
`List[str]` field and a required `int` field. -/
structure KeywordSearchArgs where
  keywords : List String
  year : Int

/-- Pydantic validation of one required `str` field: the field must be
present and be a JSON string (the empty string is accepted; pydantic v2
does not coerce other JSON types to `str`).  The error names the
field. -/
def reqStr (j : Json) (field : String) : Except String String :=
  match j.getField field with
  | some (.str s) => .ok s
  | some _ => .error field
  | none => .error field

/-- Pydantic v2 lax validation of one required `int` field: JSON integers
are accepted, and integer-shaped strings are laxly coerced to `int`. -/
def reqInt (j : Json) (field : String) : Except String Int :=
  match j.getField field with
  | some (.num n) => .ok n
  | some (.str s) =>
      match strToInt s with
      | some n => .ok n
      | none => .error field
  | some _ => .error field
  | none => .error field

/-- Pydantic v2 validation of one required `List[str]` field: the value
must be a JSON array of strings (the empty array is accepted). -/
def reqStrList (j : Json) (field : String) : Except String (List String) :=
  match j.getField field with
  | some (.arr xs) =>
      match xs.mapM convStr with
      | some ss => .ok ss
      | none => .error field
  | some _ => .error field
  | none => .error field

/-- Validation of `AwardsByAgencyAndFyArgs` against a JSON arguments
object, fields in declaration order; the error carries the first
offending field. -/
def AwardsByAgencyAndFyArgs.validate (j : Json) :
    Except String AwardsByAgencyAndFyArgs :=
  match reqStr j "year" with
  | .error f => .error f
  | .ok year =>
      match reqStr j "agency_id" with
      | .error f => .error f
      | .ok agency_id => .ok { year := year, agency_id := agency_id }

/-- Validation of `AwardDetailArgs` against a JSON arguments object: one
required `str` field `generated_unique_award_id`. -/
def AwardDetailArgs.validate (j : Json) : Except String String :=
  reqStr j "generated_unique_award_id"

/-- Validation of `KeywordSearchArgs` against a JSON arguments object,
fields in declaration order. -/
def KeywordSearchArgs.validate (j : Json) :
    Except String KeywordSearchArgs :=
  match reqStrList j "keywords" with
  | .error f => .error f
  | .ok keywords =>
      match reqInt j "year" with
      | .error f => .error f
      | .ok year => .ok { keywords := keywords, year := year }

/-- Entry point of `GetSpendingAwardsByAgencyId` as invoked through the
tool framework: the arguments object is validated against
`AwardsByAgencyAndFyArgs` before the tool body runs; a validation failure
is a `ValidationError` naming the offending field, and no request is
issued. -/
def spendingToolRun (t : Transport) (argsJson : Json) :
    ToolResult × List HttpRequest :=
  match AwardsByAgencyAndFyArgs.validate argsJson with
  | .error f => (.validationError f, [])
  | .ok a => get_gov_spending_by_fiscal_year t a.year a.agency_id

/-- Entry point of `GetAwardInfoByAwardId` as invoked through the tool
framework (validated against `AwardDetailArgs`). -/
def awardInfoToolRun (t : Transport) (argsJson : Json) :
    ToolResult × List HttpRequest :=
  match AwardDetailArgs.validate argsJson with
  | .error f => (.validationError f, [])
  | .ok awardId => get_award_info t awardId

/-- Entry point of `SearchByKeywords` as invoked through the tool
framework (validated against `KeywordSearchArgs`). -/
def searchToolRun (t : Transport) (argsJson : Json) :
    ToolResult × List HttpRequest :=
  match KeywordSearchArgs.validate argsJson with
  | .error f => (.validationError f, [])
  | .ok a => search_award_by_keyword t a.keywords a.year

/-- A stub transport answering every request with status 200 and the
JSON body `j`. -/
def stubOk (j : Json) : Transport := fun _ => .response 200 (some j)

/-- A keyword-search `results` entry carrying all twelve population keys,
with `null` for every `Optional` field. -/
def nullPaddedEntry : List (String × Json) :=
  [("internal_id", .null), ("Description", .null), ("Award ID", .null),
   ("Recipient Name", .str "ACME Corp"), ("Award Amount", .null),
   ("Total Outlays", .null), ("Awarding Agency", .null),
   ("Awarding Sub Agency", .null), ("Start Date", .null),
   ("End Date", .null), ("awarding_agency_id", .null),
   ("generated_internal_id", .null)]

/-- An award id is a plain path segment when it is nonempty, contains no
URL-special character (`'/'`, `':'`, `'?'`, `'#'`) and is not a dot
segment; exactly for such ids does `urljoin` degenerate to verbatim
appending. -/
def isPlainSegment (id : String) : Prop :=
  id.data ≠ [] ∧
    (∀ c ∈ id.data, c ≠ '/' ∧ c ≠ ':' ∧ c ≠ '?' ∧ c ≠ '#') ∧
    id.data ≠ ['.'] ∧ id.data ≠ ['.', '.']

/-! Helper lemmas shared by the claim theorems. -/

/-- A `reqStr` validation failure always names the validated field. -/
theorem reqStr_error (j : Json) (fld f : String)
    (h : reqStr j fld = .error f) : f = fld := by
  unfold reqStr at h
  split at h <;> simp_all

/-- A `reqStrList` validation failure always names the validated field. -/
theorem reqStrList_error (j : Json) (fld f : String)
    (h : reqStrList j fld = .error f) : f = fld := by
  unfold reqStrList at h
  split at h
  · split at h <;> simp_all
  · simp_all
  · simp_all

/-- A successful `reqStr` validation means the field was present. -/
theorem reqStr_ok_present (j : Json) (fld : String) (s : String)
    (h : reqStr j fld = .ok s) : j.getField fld ≠ none := by
  intro hn
  unfold reqStr at h
  rw [hn] at h
  cases h

/-- A successful `reqStrList` validation means the field was present. -/
theorem reqStrList_ok_present (j : Json) (fld : String) (ss : List String)
    (h : reqStrList j fld = .ok ss) : j.getField fld ≠ none := by
  intro hn
  unfold reqStrList at h
  rw [hn] at h
  cases h

/-- Evaluation of `.get("results", [])` on an object without the key. -/
theorem getResults_no_results (fields : List (String × Json))
    (h : fields.lookup "results" = none) :
    getResults (.obj fields) = .ok [] := by
  simp [getResults, h]

/-- A successful mapping of the upstream `results` entries produces one
typed result per entry, in the same order. -/
theorem mapEntries_ok_spec (entries : List Json)
    (rs : List KeywordSearchResponse) (h : mapEntries entries = .ok rs) :
    rs.length = entries.length ∧
      ∀ i : Nat,
        rs[i]? = (entries[i]?).bind fun e => (mapEntry e).toOption := by
  induction entries generalizing rs with
  | nil =>
      unfold mapEntries at h
      cases h
      exact ⟨rfl, fun i => by simp⟩
  | cons e rest ih =>
      unfold mapEntries at h
      cases he : mapEntry e with
      | error err => rw [he] at h; cases h
      | ok r =>
          rw [he] at h
          cases hrest : mapEntries rest with
          | error err => rw [hrest] at h; cases h
          | ok rs' =>
              rw [hrest] at h
              cases h
              obtain ⟨hl, hg⟩ := ih rs' hrest
              refine ⟨by simp [hl], fun i => ?_⟩
              cases i with
              | zero => simp [he, Except.toOption]
              | succ n => simpa using hg n

/-- Python `str.split('/')` of a slash-free list with one trailing
slash appended: the list itself and one empty segment. -/
theorem splitSlash_no_slash_append (l : List Char)
    (hs : ∀ c ∈ l, c ≠ '/') : splitSlash (l ++ ['/']) = [l, []] := by
  induction l with
  | nil => simp [splitSlash]
  | cons c t ih =>
      have hc : c ≠ '/' := hs c (List.mem_cons_self c t)
      have ih' := ih fun x hx => hs x (List.mem_cons_of_mem c hx)
      simp [splitSlash, hc, ih']

/-- The scheme-and-netloc part of the award-detail base URL. -/
theorem splitAuthority_awards_fst :
    (splitAuthority AWARDS_BASE_URL.data).1
      = "https://api.usaspending.gov".data := by decide

/-- The path part of the award-detail base URL. -/
theorem splitAuthority_awards_snd :
    (splitAuthority AWARDS_BASE_URL.data).2
      = "/api/v2/awards/".data := by decide

/-- The base path's segments with the last dropped. -/
theorem splitSlash_bpath :
    (splitSlash ("/api/v2/awards/".data)).dropLast
      = [[], ['a', 'p', 'i'], ['v', '2'],
         ['a', 'w', 'a', 'r', 'd', 's']] := by decide

/-- The merged segment list of the award-detail URL for a plain id. -/
theorem urljoinSegments_plain (l : List Char) (h1 : l ≠ [])
    (hs : ∀ c ∈ l, c ≠ '/') :
    urljoinSegments ("/api/v2/awards/".data) (l ++ ['/'])
      = [[], ['a', 'p', 'i'], ['v', '2'],
         ['a', 'w', 'a', 'r', 'd', 's'], l, []] := by
  obtain ⟨c, t, rfl⟩ := List.exists_cons_of_ne_nil h1
  have hc : c ≠ '/' := hs c (List.mem_cons_self c t)
  have hhead : ¬(((c :: t) ++ ['/']).head? = some '/') := by simp [hc]
  have hbp : ¬(("/api/v2/awards/".data : List Char) = []) := by decide
  unfold urljoinSegments
  rw [if_neg hhead, if_neg hbp, splitSlash_bpath,
      splitSlash_no_slash_append (c :: t) hs]
  simp [filterMiddle, filterLast]

/-- Dot-segment resolution is the identity on the merged segment list of
a plain id. -/
theorem resolveAll_plain (l : List Char) (h3 : l ≠ ['.'])
    (h4 : l ≠ ['.', '.']) :
    resolveAll [[], ['a', 'p', 'i'], ['v', '2'],
        ['a', 'w', 'a', 'r', 'd', 's'], l, []]
      = [[], ['a', 'p', 'i'], ['v', '2'],
         ['a', 'w', 'a', 'r', 'd', 's'], l, []] := by
  simp [resolveAll, lastSeg, resolveLoop, h3, h4]

/-- The resolved path of the award-detail URL for a plain id. -/
theorem urljoinPath_plain (l : List Char) (h1 : l ≠ [])
    (hs : ∀ c ∈ l, c ≠ '/') (h3 : l ≠ ['.']) (h4 : l ≠ ['.', '.']) :
    urljoinPath ("/api/v2/awards/".data) (l ++ ['/'])
      = '/' :: 'a' :: 'p' :: 'i' :: '/' :: 'v' :: '2' :: '/' ::
        'a' :: 'w' :: 'a' :: 'r' :: 'd' :: 's' :: '/' :: (l ++ ['/']) := by
  unfold urljoinPath
  rw [urljoinSegments_plain l h1 hs, resolveAll_plain l h3 h4]
  simp [joinSlash]

/-! Claim theorems. -/

/-- C2 (code_bug evidence): the transport helpers never call
`raise_for_status`, so `httpx.HTTPStatusError` is never raised and the
`except httpx.HTTPStatusError` clause of every tool is dead code.  With a
stub transport answering HTTP 500 with a valid JSON body,
`GetAgencies` raises no `UpstreamStatusError` at all: it returns the 500
response's body as a successful result. -/
theorem get_us_agencies_status500_passthrough :
    get_us_agencies
        (fun _ => .response 500
          (some (.obj [("detail", .str "Internal Server Error")])))
      = (.ok (.obj [("detail", .str "Internal Server Error")]),
         [.get AGENCIES_URL]) := rfl

/-- C3 (counterexample): with a stub transport answering HTTP 200 and a
body that is not valid JSON, `GetAgencies` does not fail with a
structured gateway error: the raw `json.JSONDecodeError` raised by
`response.json()` is caught by neither `except` clause and escapes the
gateway boundary. -/
theorem get_us_agencies_malformed_body_raises :
    get_us_agencies (fun _ => .response 200 none)
      = (.raised .jsonDecodeError, [.get AGENCIES_URL]) := rfl

/-- C3 (amended): a connection/timeout transport failure
(`httpx.RequestError`) is translated by every tool into the structured
gateway `McpError` whose message carries the requested URL and the cause;
but a malformed (non-JSON) response body makes `response.json()` raise a
raw `json.JSONDecodeError` that escapes the gateway boundary uncaught. -/
theorem tools_transport_error_translation (cause : String)
    (year agency_id awardId : String) (keywords : List String) :
    get_us_agencies (fun _ => .requestError cause)
        = (.mcpError (transportErrorMessage AGENCIES_URL cause),
           [.get AGENCIES_URL]) ∧
      get_gov_spending_by_fiscal_year (fun _ => .requestError cause)
          year agency_id
        = (.mcpError (transportErrorMessage SPENDING_URL cause),
           [.post SPENDING_URL (spendingBody year agency_id)]) ∧
      get_award_info (fun _ => .requestError cause) awardId
        = (.mcpError
             (transportErrorMessage (get_award_info_url awardId) cause),
           [.get (get_award_info_url awardId)]) ∧
      search_award_by_keyword (fun _ => .requestError cause) keywords 2023
        = (.mcpError (transportErrorMessage SEARCH_URL cause),
           [.post SEARCH_URL (searchBody keywords 2023)]) ∧
      get_us_agencies (fun _ => .response 200 none)
        = (.raised .jsonDecodeError, [.get AGENCIES_URL]) :=
  ⟨rfl, rfl, rfl, rfl, rfl⟩

/-- C6: for year 2023 the keyword-search tool issues exactly one POST
whose body's derived time period is Jan 1 through Dec 31 of 2023,
independent of the keywords. -/
theorem search_time_period_2023 (keywords : List String) (t : Transport) :
    (search_award_by_keyword t keywords 2023).2
        = [.post SEARCH_URL (searchBody keywords 2023)] ∧
      ((searchBody keywords 2023).getField "filters").bind
          (fun f => f.getField "time_period")
        = some (.arr [.obj [("start_date", .str "2023-01-01"),
                            ("end_date", .str "2023-12-31")]]) := by
  refine ⟨?_, rfl⟩
  unfold search_award_by_keyword
  rw [if_neg (by norm_num)]
  cases ht : t (.post SEARCH_URL (searchBody keywords 2023)) with
  | response s b => cases b <;> simp [ht]
  | requestError c => simp [ht]

/-- C8: for every fiscal year and agency id, `GetSpendingAwardsByAgencyId`
issues exactly one POST to the spending endpoint whose body is the
documented shape, and returns the upstream JSON unchanged on success. -/
theorem spending_body_and_passthrough (year agency_id : String) (j : Json) :
    get_gov_spending_by_fiscal_year (stubOk j) year agency_id
        = (.ok j, [.post SPENDING_URL (spendingBody year agency_id)]) ∧
      spendingBody year agency_id
        = .obj [("type", .str "award"),
                ("filters", .obj [("fy", .str year),
                                  ("period", .str "12"),
                                  ("agency", .str agency_id)])] :=
  ⟨rfl, rfl⟩

/-- C9: whenever the (stubbed) transport answers a 2xx status with a JSON
object, `GetAgencies` returns that parsed object unchanged, issuing
exactly one GET to the toptier-agencies endpoint. -/
theorem agencies_passthrough (s : Nat) (j : Json)
    (_h1 : 200 ≤ s) (_h2 : s < 300) :
    get_us_agencies (fun _ => .response s (some j))
      = (.ok j, [.get AGENCIES_URL]) := rfl

/-- C9 witness: the stub of the spec's end-to-end test. -/
theorem agencies_passthrough_witness :
    get_us_agencies
        (fun _ => .response 200
          (some (.obj [("results", .arr [.obj [("agency_id", .num 1)]])])))
      = (.ok (.obj [("results", .arr [.obj [("agency_id", .num 1)]])]),
         [.get AGENCIES_URL]) :=
  agencies_passthrough 200
    (.obj [("results", .arr [.obj [("agency_id", .num 1)]])])
    (by norm_num) (by norm_num)

/-- C1 (amended): for each operation with required fields, an arguments
object missing a required field fails with a `ValidationError` naming a
required field of the operation, and the transport is never invoked (the
request log is empty). -/
theorem missing_required_field_validation (t : Transport) (j : Json) :
    ((j.getField "year" = none ∨ j.getField "agency_id" = none) →
       ∃ f, (f = "year" ∨ f = "agency_id") ∧
         spendingToolRun t j = (.validationError f, [])) ∧
      (j.getField "generated_unique_award_id" = none →
         awardInfoToolRun t j
           = (.validationError "generated_unique_award_id", [])) ∧
      ((j.getField "keywords" = none ∨ j.getField "year" = none) →
         ∃ f, (f = "keywords" ∨ f = "year") ∧
           searchToolRun t j = (.validationError f, [])) := by
  refine ⟨?_, ?_, ?_⟩
  · intro h
    cases hy : reqStr j "year" with
    | error f =>
        exact ⟨f, Or.inl (reqStr_error j "year" f hy),
          by simp [spendingToolRun, AwardsByAgencyAndFyArgs.validate, hy]⟩
    | ok y =>
        rcases h with h | h
        · exact absurd h (reqStr_ok_present j "year" y hy)
        · have ha : reqStr j "agency_id" = .error "agency_id" := by
            unfold reqStr
            rw [h]
          exact ⟨"agency_id", Or.inr rfl,
            by simp [spendingToolRun, AwardsByAgencyAndFyArgs.validate,
                     hy, ha]⟩
  · intro h
    have hv : AwardDetailArgs.validate j
        = .error "generated_unique_award_id" := by
      unfold AwardDetailArgs.validate reqStr
      rw [h]
    simp [awardInfoToolRun, hv]
  · intro h
    cases hk : reqStrList j "keywords" with
    | error f =>
        exact ⟨f, Or.inl (reqStrList_error j "keywords" f hk),
          by simp [searchToolRun, KeywordSearchArgs.validate, hk]⟩
    | ok ks =>
        rcases h with h | h
        · exact absurd h (reqStrList_ok_present j "keywords" ks hk)
        · have hy : reqInt j "year" = .error "year" := by
            unfold reqInt
            rw [h]
          exact ⟨"year", Or.inr rfl,
            by simp [searchToolRun, KeywordSearchArgs.validate, hk, hy]⟩

/-- C1 witness: the empty arguments object is rejected before any
transport call. -/
theorem missing_required_field_validation_witness :
    ∃ f, (f = "year" ∨ f = "agency_id") ∧
      spendingToolRun (stubOk .null) (.obj [])
        = (.validationError f, []) :=
  (missing_required_field_validation (stubOk .null) (.obj [])).1
    (Or.inl rfl)

/-- C1 (counterexample): empty required fields do not fail validation.
With every required field present but empty — empty strings for
`GetSpendingAwardsByAgencyId`, an empty keyword list (and an
integer-shaped string for the declared-`int` year, which pydantic laxly
coerces) for `SearchByKeywords` — validation succeeds and the transport
IS invoked, contradicting the claim. -/
theorem empty_fields_pass_validation :
    spendingToolRun (stubOk (.obj []))
        (.obj [("year", .str ""), ("agency_id", .str "")])
      = (.ok (.obj []), [.post SPENDING_URL (spendingBody "" "")]) ∧
      searchToolRun (stubOk (.obj []))
          (.obj [("keywords", .arr []), ("year", .str "2023")])
        = (.okResults [], [.post SEARCH_URL (searchBody [] 2023)]) :=
  ⟨rfl, rfl⟩

/-- C5 (amended): an upstream `results` entry lacking the
`"Recipient Name"` key fails the mapping with a pydantic
`ValidationError` that reports `"Recipient Name"` among the offending
fields; and an entry carrying all twelve keys with `null` for every
`Optional` field maps successfully with those fields unset.  (Under
pydantic v2 every field of `KeywordSearchResponse` is required — none has
a default — so presence of `recipient_name` alone does not suffice; see
the counterexample.) -/
theorem recipient_name_required (entry : List (String × Json))
    (h : entry.lookup "Recipient Name" = none) :
    (∃ errs, mapEntry (.obj entry)
          = .error (.pydanticValidationError errs) ∧
        "Recipient Name" ∈ errs) ∧
      mapEntry (.obj nullPaddedEntry)
        = .ok { internal_id := none, description := none,
                award_id := none, recipient_name := "ACME Corp",
                award_amount := none, total_outlays := none,
                awarding_agency := none, awarding_subagency := none,
                start_date := none, end_date := none,
                awarding_agency_id := none,
                generated_unique_award_id := none } := by
  refine ⟨⟨entryErrors entry, ?_, ?_⟩, rfl⟩
  · have hmem : "Recipient Name" ∈ entryErrors entry := by
      simp [entryErrors, fieldErr, h]
    have hne : entryErrors entry ≠ [] := by
      intro hnil
      rw [hnil] at hmem
      cases hmem
    simp [mapEntry, hne]
  · simp [entryErrors, fieldErr, h]

/-- C5 witness: the empty entry lacks `"Recipient Name"` and fails the
mapping reporting it. -/
theorem recipient_name_required_witness :
    ∃ errs, mapEntry (.obj []) = .error (.pydanticValidationError errs) ∧
      "Recipient Name" ∈ errs :=
  (recipient_name_required [] rfl).1

/-- C5 (counterexample): an entry containing only `"Recipient Name"` does
NOT map successfully — every other field of `KeywordSearchResponse` is
required under pydantic v2 (the `Optional` annotations carry no
defaults), so the mapping fails reporting all eleven missing fields. -/
theorem only_recipient_name_fails :
    mapEntry (.obj [("Recipient Name", .str "ACME Corp")])
      = .error (.pydanticValidationError
          ["internal_id", "Description", "Award ID", "Award Amount",
           "Total Outlays", "Awarding Agency", "Awarding Sub Agency",
           "Start Date", "End Date", "awarding_agency_id",
           "generated_internal_id"]) := rfl

/-- C10: a successful upstream response whose top-level object lacks a
`results` key makes `SearchByKeywords` return the empty list (no error);
and whenever the mapping of the `results` entries succeeds, the tool
returns exactly one typed result per upstream entry, in the same
order. -/
theorem search_results_shape :
    (∀ (fields : List (String × Json)) (keywords : List String),
        fields.lookup "results" = none →
        search_award_by_keyword (stubOk (.obj fields)) keywords 2023
          = (.okResults [], [.post SEARCH_URL (searchBody keywords 2023)])) ∧
      (∀ (entries : List Json) (rs : List KeywordSearchResponse),
        mapEntries entries = .ok rs →
        (search_award_by_keyword
            (stubOk (.obj [("results", .arr entries)])) ["k"] 2023).1
            = .okResults rs ∧
          rs.length = entries.length ∧
          ∀ i : Nat,
            rs[i]? = (entries[i]?).bind fun e => (mapEntry e).toOption) := by
  constructor
  · intro fields keywords h
    simp [search_award_by_keyword, stubOk, getResults_no_results fields h,
          mapEntries]
  · intro entries rs h
    refine ⟨?_, mapEntries_ok_spec entries rs h⟩
    simp [search_award_by_keyword, stubOk, getResults, h]

/-- C10 witness: the empty upstream object yields the empty result
list. -/
theorem search_results_shape_witness :
    search_award_by_keyword (stubOk (.obj [])) ["space"] 2023
      = (.okResults [], [.post SEARCH_URL (searchBody ["space"] 2023)]) :=
  search_results_shape.1 [] ["space"] rfl

/-- C7: the keyword-search tool issues exactly one POST whose body fixes
page 1, limit 20, sort by award amount descending, subawards false and
award type codes A..D, passing the caller's keywords in their given
order. -/
theorem search_post_body_fixed (t : Transport) (keywords : List String)
    (year : Int) (h1 : 1 ≤ year) (h2 : year ≤ 9999) :
    (search_award_by_keyword t keywords year).2
        = [.post SEARCH_URL (searchBody keywords year)] ∧
      (searchBody keywords year).getField "page" = some (.num 1) ∧
      (searchBody keywords year).getField "limit" = some (.num 20) ∧
      (searchBody keywords year).getField "sort"
        = some (.str "Award Amount") ∧
      (searchBody keywords year).getField "order" = some (.str "desc") ∧
      (searchBody keywords year).getField "subawards"
        = some (.bool false) ∧
      ((searchBody keywords year).getField "filters").bind
          (fun f => f.getField "award_type_codes")
        = some (.arr [.str "A", .str "B", .str "C", .str "D"]) ∧
      ((searchBody keywords year).getField "filters").bind
          (fun f => f.getField "keywords")
        = some (.arr (keywords.map .str)) := by
  refine ⟨?_, rfl, rfl, rfl, rfl, rfl, rfl, rfl⟩
  unfold search_award_by_keyword
  rw [if_neg (by omega)]
  cases ht : t (.post SEARCH_URL (searchBody keywords year)) with
  | response s b => cases b <;> simp [ht]
  | requestError c => simp [ht]

/-- C4 (amended): for every award id that is a plain path segment
(nonempty, without `'/'`, `':'`, `'?'`, `'#'`, and not a dot segment),
`GetAwardInfoByAwardId` requests exactly the base path followed by the id
and a trailing slash.  Ids containing URL-special characters instead
undergo relative-URL resolution (see the counterexample). -/
theorem award_url_plain_segment (id : String) (h : isPlainSegment id) :
    get_award_info_url id
      = "https://api.usaspending.gov/api/v2/awards/" ++ id ++ "/" := by
  obtain ⟨h1, hall, h3, h4⟩ := h
  have hs : ∀ c ∈ id.data, c ≠ '/' := fun c hc => (hall c hc).1
  have hrel : (id ++ "/").data = id.data ++ ['/'] := rfl
  have hR : "https://api.usaspending.gov/api/v2/awards/" ++ id ++ "/"
      = String.mk (("https://api.usaspending.gov/api/v2/awards/".data
          ++ id.data) ++ ['/']) := rfl
  have hsplit : "https://api.usaspending.gov/api/v2/awards/".data
      = "https://api.usaspending.gov".data ++
        ['/', 'a', 'p', 'i', '/', 'v', '2', '/',
         'a', 'w', 'a', 'r', 'd', 's', '/'] := by decide
  unfold get_award_info_url urljoin
  rw [hrel, splitAuthority_awards_fst, splitAuthority_awards_snd,
      urljoinPath_plain id.data h1 hs h3 h4, hR, hsplit]
  simp

/-- C4 witness: the spec's concrete id. -/
theorem award_url_plain_segment_witness :
    get_award_info_url "CONT_AWD_X1"
      = "https://api.usaspending.gov/api/v2/awards/"
          ++ "CONT_AWD_X1" ++ "/" :=
  award_url_plain_segment "CONT_AWD_X1"
    (by unfold isPlainSegment; decide)

/-- C4 (counterexample): an id is not appended verbatim when it contains
URL-special characters: for the id `"/x"`, relative-URL resolution
replaces the whole base path, so the requested URL is not the base path
followed by the id. -/
theorem award_url_not_verbatim :
    get_award_info_url "/x" = "https://api.usaspending.gov/x/" ∧
      get_award_info_url "/x"
        ≠ "https://api.usaspending.gov/api/v2/awards/" ++ "/x" ++ "/" := by
  constructor
  · decide
  · decide

/-- C7 witness: a concrete invocation for year 2023. -/
theorem search_post_body_fixed_witness :
    (search_award_by_keyword (stubOk .null) ["nasa"] 2023).2
        = [.post SEARCH_URL (searchBody ["nasa"] 2023)] ∧
      (searchBody ["nasa"] 2023).getField "page" = some (.num 1) ∧
      (searchBody ["nasa"] 2023).getField "limit" = some (.num 20) ∧
      (searchBody ["nasa"] 2023).getField "sort"
        = some (.str "Award Amount") ∧
      (searchBody ["nasa"] 2023).getField "order" = some (.str "desc") ∧
      (searchBody ["nasa"] 2023).getField "subawards"
        = some (.bool false) ∧
      ((searchBody ["nasa"] 2023).getField "filters").bind
          (fun f => f.getField "award_type_codes")
        = some (.arr [.str "A", .str "B", .str "C", .str "D"]) ∧
      ((searchBody ["nasa"] 2023).getField "filters").bind
          (fun f => f.getField "keywords")
        = some (.arr [.str "nasa"]) :=
  search_post_body_fixed (stubOk .null) ["nasa"] 2023
    (by norm_num) (by norm_num)
